import Mathlib

/-!
# LIVE_MENU_BACKEND — order lifecycle and notification fan-out

Shallow embedding of the order-management slice of the repository:
`api/models.py` (`CompanyInfo`, `Order`, `OrderItem`), `api/serializers.py`
(`OrderCreateSerializer`, the derived item fields of `OrderItemSerializer`),
and the order views of `api/views.py` (`_build_ws_payload`, `create_order`,
`accept_order`, `get_orders`, `get_order_detail`, `update_order_status`,
`cancel_order`).

Modelling conventions:
* Django `Decimal` columns become `ℚ`; DRF's `max_digits=10, decimal_places=2`
  validation becomes `den ∣ 100 ∧ |value| < 10^8`.
* Timestamps (`order_time`, `created_at`, `updated_at`) are opaque strings;
  `auto_now` on save is modelled by threading an explicit `now` argument.
  The `created_at` column of `order_items` is elided (no view reads it).
* The database is a pair of tables (`company_info`, `orders`); the
  `order_items` table is kept nested inside its parent `Order` row, which
  still lets a partially-committed creation be represented (an order row
  whose nested item list holds only the items committed before a failure).
* `str(Decimal)` rendering in the WebSocket payload is elided (the payload
  keeps the `ℚ` value; `Decimal → str` is injective).
* Python falsiness of optional request parameters (`if not x`) is modelled
  on `Option String` (`none` and `some ""` are both falsy).
* The channels layer is an environment parameter: `none` models a falsy
  `channel_layer`, and `some send` models `group_send`, whose outcome
  (delivery or a raised exception) the environment chooses per event.
-/

namespace LiveMenu

/-- Python `str.strip()`: drop whitespace from both ends. -/
def pyStrip (s : String) : String :=
  ⟨((s.data.dropWhile Char.isWhitespace).reverse.dropWhile Char.isWhitespace).reverse⟩

/-- Python truthiness of an optional string request parameter:
`None` and `""` are falsy. -/
def strTruthy : Option String → Bool
  | none => false
  | some s => !(s == "")

/-- Model of `api/models.py` `CompanyInfo` — the tenant registry row.  Contact and
leasing columns are elided: no order endpoint reads them. -/
structure CompanyInfo where
  client_id : String
  firm_name : String
  place : String
  is_active : Bool
deriving Repr, DecidableEq

/-- Model of `api/models.py` `OrderItem` — one line of an order. -/
structure OrderItem where
  menu_item_id : Int
  name : String
  portion : String
  quantity : Int
  price : ℚ
  tax : ℚ
deriving Repr, DecidableEq

/-- The `OrderItem.item_total` property: `price * quantity`. -/
def OrderItem.item_total (i : OrderItem) : ℚ := i.price * i.quantity

/-- The `OrderItem.tax_amount` property: `(item_total * tax) / 100`. -/
def OrderItem.tax_amount (i : OrderItem) : ℚ := i.item_total * i.tax / 100

/-- The `OrderItem.item_total_with_tax` property: `item_total + tax_amount`. -/
def OrderItem.item_total_with_tax (i : OrderItem) : ℚ := i.item_total + i.tax_amount

/-- Model of `api/models.py` `Order` — one customer order row, with its
`order_items` rows nested. -/
structure Order where
  id : Nat
  session_id : String
  client_id : String
  username : String
  customer_name : String
  customer_phone : Option String
  table_number : String
  waiter_name : Option String
  member_count : Int
  subtotal : ℚ
  tax_amount : ℚ
  total_amount : ℚ
  status : String
  order_time : String
  special_instructions : Option String
  created_at : String
  updated_at : String
  order_items : List OrderItem
deriving Repr, DecidableEq

/-- The persistent store: the `company_info` table and the `orders` table
(each order row carrying its `order_items` rows). -/
structure DB where
  company_info : List CompanyInfo
  orders : List Order
deriving Repr, DecidableEq

/-- Lookup `Order.objects.get(id=oid)`: the row whose id matches, if any. -/
def getOrderById (orders : List Order) (oid : Nat) : Option Order :=
  orders.find? (fun o => o.id == oid)

/-- Model of `order.save()` on an existing row: replace the row with matching id. -/
def saveOrder (orders : List Order) (o : Order) : List Order :=
  orders.map (fun x => if x.id == o.id then o else x)

/-- Autoincrement: the next primary key for a new order row. -/
def nextOrderId (orders : List Order) : Nat :=
  orders.foldl (fun acc o => max acc o.id) 0 + 1

/-- One item entry of `_build_ws_payload`'s `items` list. -/
structure WsItem where
  name : String
  portion : String
  quantity : Int
  price : ℚ
deriving Repr, DecidableEq

/-- The dict built by `_build_ws_payload` (`api/views.py:1063`). -/
structure WsPayload where
  id : Nat
  client_id : String
  username : String
  customer_name : String
  customer_phone : String
  member_count : Int
  table_number : String
  waiter_name : String
  total_amount : ℚ
  status : String
  order_time : String
  created_at : String
  items : List WsItem
deriving Repr, DecidableEq

/-- Function `_build_ws_payload(order)` (`api/views.py:1063-1090`): plain-dict
snapshot of an order for WebSocket broadcast, items taken from the
`order.order_items.all()` of the order object handed in. -/
def build_ws_payload (order : Order) : WsPayload :=
  { id := order.id
    client_id := order.client_id
    username := order.username
    customer_name := order.customer_name
    customer_phone := order.customer_phone.getD ""
    member_count := if order.member_count == 0 then 1 else order.member_count
    table_number := order.table_number
    waiter_name := order.waiter_name.getD ""
    total_amount := order.total_amount
    status := order.status
    order_time := order.order_time
    created_at := order.created_at
    items := order.order_items.map (fun i => ⟨i.name, i.portion, i.quantity, i.price⟩) }

/-- One `channel_layer.group_send(group, {'type': ..., 'order': ...})` call. -/
structure WsEvent where
  group : String
  event_type : String
  order : WsPayload
deriving Repr, DecidableEq

/-- Outcome of one `group_send` attempt: delivered, or an exception raised
by the channels layer. -/
inductive SendOutcome where
  | delivered
  | raised (msg : String)
deriving Repr, DecidableEq

/-- The channels layer seen by the views: `none` models a falsy
`channel_layer`; `some send` models a live layer whose delivery outcome the
environment chooses per event. -/
def ChannelLayer : Type := Option (WsEvent → SendOutcome)

/-- The observable result of one mutating view call: the database after the
call, the `group_send` calls attempted, the broadcast-failure warnings
printed, and the HTTP response body. -/
structure MutationOut (ρ : Type) where
  db : DB
  sent : List WsEvent
  log : List String
  resp : ρ
deriving Repr, DecidableEq

/-- Response bodies of `accept_order` / `update_order_status` /
`cancel_order`. -/
inductive OrderResponse where
  | ok (message : String) (order : Order)
  | badRequest (message : String)
  | notFound (message : String)
deriving Repr, DecidableEq

/-- Response bodies of `get_order_detail`. -/
inductive DetailResponse where
  | ok (order : Order)
  | notFound (message : String)
deriving Repr, DecidableEq

/-- Response bodies of `get_orders`. -/
inductive ListResponse where
  | ok (orders : List Order) (count : Nat)
  | badRequest (message : String)
deriving Repr, DecidableEq

/-- Response bodies of `create_order`: 201 with the order, 400 with the
field errors, or an exception escaping the view (HTTP 500). -/
inductive CreateResponse where
  | created (message : String) (order : Order)
  | badRequest (error_fields : List String)
  | uncaught (msg : String)
deriving Repr, DecidableEq

/-- The orders carried by a `get_orders` response (`[]` on an error). -/
def ListResponse.ordersOf : ListResponse → List Order
  | .ok os _ => os
  | .badRequest _ => []

/-- The `if channel_layer: try ... except` block shared by `create_order`
(`api/views.py:1103-1117`) and `accept_order` (`api/views.py:1161-1175`):
re-fetch the order fresh from the committed store, `group_send` the event to
`<groupPre><client_id>`, and swallow (but print) any exception.  Returns the
`group_send` calls attempted and the warnings printed. -/
def tryBroadcast (layer : ChannelLayer) (orders : List Order) (oid : Nat)
    (groupPre evType failPre : String) : List WsEvent × List String :=
  match layer with
  | none => ([], [])
  | some send =>
    match getOrderById orders oid with
    | none => ([], [failPre ++ "DoesNotExist"])
    | some order_fresh =>
      let ev : WsEvent := ⟨groupPre ++ order_fresh.client_id, evType, build_ws_payload order_fresh⟩
      match send ev with
      | .delivered => ([ev], [])
      | .raised m => ([ev], [failPre ++ m])

/-- View `accept_order(request, order_id)` (`api/views.py:1127-1182`).
`waiter_name_raw` is `request.data.get('waiter_name', '')`; `now` is the
server clock driving `auto_now` on save. -/
def accept_order (layer : ChannelLayer) (db : DB) (order_id : Nat)
    (waiter_name_raw : Option String) (now : String) : MutationOut OrderResponse :=
  let waiter_name := pyStrip (waiter_name_raw.getD "")
  if waiter_name = "" then
    ⟨db, [], [], .badRequest "waiter_name is required."⟩
  else
    match getOrderById db.orders order_id with
    | none => ⟨db, [], [], .notFound "Order not found."⟩
    | some order =>
      if order.status ≠ "pending" then
        ⟨db, [], [],
          .badRequest
            s!"Cannot accept an order with status \"{order.status}\". Only pending orders can be accepted."⟩
      else
        let order' : Order :=
          { order with waiter_name := some waiter_name, status := "preparing", updated_at := now }
        let db' : DB := { db with orders := saveOrder db.orders order' }
        let bc :=
          tryBroadcast layer db'.orders order'.id "kitchen_" "order_accepted"
            "⚠️  WebSocket broadcast to kitchen failed: "
        ⟨db', bc.1, bc.2, .ok s!"Order accepted by {waiter_name} and sent to kitchen." order'⟩

/-- View `get_orders(request)` (`api/views.py:1185-1213`): mandatory `client_id`
filter, optional `username` and `status` narrowing filters, ordered by
`-created_at`. -/
def get_orders (db : DB) (client_id username status_filter : Option String) : ListResponse :=
  if !(strTruthy client_id) then .badRequest "client_id is required."
  else
    let cid := client_id.getD ""
    let q1 := db.orders.filter (fun o => o.client_id == cid)
    let q2 := if strTruthy username then q1.filter (fun o => o.username == username.getD "") else q1
    let q3 :=
      if strTruthy status_filter then q2.filter (fun o => o.status == status_filter.getD "") else q2
    let sorted := q3.mergeSort (fun a b => decide (b.created_at ≤ a.created_at))
    .ok sorted sorted.length

/-- View `get_order_detail(request, order_id)` (`api/views.py:1216-1224`). -/
def get_order_detail (db : DB) (order_id : Nat) : DetailResponse :=
  match getOrderById db.orders order_id with
  | some o => .ok o
  | none => .notFound "Order not found."

/-- View `update_order_status(request, order_id)` (`api/views.py:1227-1242`):
direct administrative status set, no transition guard. -/
def update_order_status (db : DB) (order_id : Nat) (new_status : Option String)
    (now : String) : MutationOut OrderResponse :=
  if !(strTruthy new_status) then ⟨db, [], [], .badRequest "status is required."⟩
  else
    match getOrderById db.orders order_id with
    | none => ⟨db, [], [], .notFound "Order not found."⟩
    | some order =>
      let order' : Order := { order with status := new_status.getD "", updated_at := now }
      ⟨{ db with orders := saveOrder db.orders order' }, [], [],
        .ok "Order status updated successfully." order'⟩

/-- View `cancel_order(request, order_id)` (`api/views.py:1245-1260`). -/
def cancel_order (db : DB) (order_id : Nat) (now : String) : MutationOut OrderResponse :=
  match getOrderById db.orders order_id with
  | none => ⟨db, [], [], .notFound "Order not found."⟩
  | some order =>
    if order.status == "completed" || order.status == "cancelled" then
      ⟨db, [], [], .badRequest s!"Cannot cancel an order with status: {order.status}."⟩
    else
      let order' : Order := { order with status := "cancelled", updated_at := now }
      ⟨{ db with orders := saveOrder db.orders order' }, [], [],
        .ok "Order cancelled successfully." order'⟩

/-! ## `OrderCreateSerializer` (`api/serializers.py:267-297`) -/

/-- One entry of the request's `items` list: a plain dict, so every key may
be absent.  `OrderCreateSerializer` declares `items` as
`ListField(child=DictField())` and validates nothing inside the dicts. -/
structure ItemInput where
  menu_item_id : Option Int
  name : Option String
  portion : Option String
  quantity : Option Int
  price : Option ℚ
  tax : Option ℚ
deriving Repr, DecidableEq

/-- The request body of `create_order`, field per serializer field;
`none` is an absent key. -/
structure OrderInput where
  session_id : Option String
  client_id : Option String
  username : Option String
  customer_name : Option String
  customer_phone : Option String
  table_number : Option String
  member_count : Option Int
  subtotal : Option ℚ
  tax_amount : Option ℚ
  total_amount : Option ℚ
  order_time : Option String
  special_instructions : Option String
  items : Option (List ItemInput)
deriving Repr, DecidableEq

/-- A required DRF `CharField(max_length=n)`: present, non-blank after
whitespace trimming, within the length bound. -/
def charFieldOk (v : Option String) (maxLen : Nat) : Bool :=
  match v with
  | none => false
  | some s => !(pyStrip s == "") && decide (s.length ≤ maxLen)

/-- An optional, blank-allowed DRF `CharField(max_length=n)`. -/
def optCharFieldOk (v : Option String) (maxLen : Nat) : Bool :=
  match v with
  | none => true
  | some s => decide (s.length ≤ maxLen)

/-- A required DRF `DecimalField(max_digits=10, decimal_places=2)`: at most
two decimal places and fewer than 9 integer digits.  No `min_value` is set,
so negative amounts pass. -/
def decimalFieldOk (v : Option ℚ) : Bool :=
  match v with
  | none => false
  | some q => decide (q.den ∣ 100) && decide (-100000000 < q) && decide (q < 100000000)

/-- Check for `IntegerField(min_value=1, default=1)` on `member_count`. -/
def memberCountOk : Option Int → Bool
  | none => true
  | some n => decide (1 ≤ n)

/-- Validation `serializer.is_valid()` for `OrderCreateSerializer`: only the top-level
order fields are validated; the `items` dicts merely have to be present. -/
def order_create_is_valid (inp : OrderInput) : Bool :=
  charFieldOk inp.session_id 100 && charFieldOk inp.client_id 100 &&
  charFieldOk inp.username 100 && charFieldOk inp.customer_name 200 &&
  optCharFieldOk inp.customer_phone 20 && charFieldOk inp.table_number 20 &&
  memberCountOk inp.member_count &&
  decimalFieldOk inp.subtotal && decimalFieldOk inp.tax_amount &&
  decimalFieldOk inp.total_amount &&
  inp.order_time.isSome && inp.items.isSome

/-- One `OrderItem.objects.create(...)` call for one item dict
(`api/serializers.py:288-296`): the five mandatory keys are read with
`item_data['key']`, so an absent key raises `KeyError`; `tax` is read with
`.get('tax', 0)`. -/
def orderItemFromInput (it : ItemInput) : Option OrderItem :=
  match it.menu_item_id, it.name, it.portion, it.quantity, it.price with
  | some m, some n, some p, some q, some pr => some ⟨m, n, p, q, pr, it.tax.getD 0⟩
  | _, _, _, _, _ => none

/-- The item-creation loop of `OrderCreateSerializer.create`, run in
autocommit (no enclosing transaction): returns the item rows committed
before any failure, plus the uncaught exception if one was raised. -/
def commitItems : List ItemInput → List OrderItem × Option String
  | [] => ([], none)
  | it :: rest =>
    match orderItemFromInput it with
    | none => ([], some "KeyError while creating order item")
    | some oi =>
      let (os, err) := commitItems rest
      (oi :: os, err)

/-- The `Order.objects.create(**validated_data)` row: DRF's validated data
(char fields whitespace-trimmed, `member_count` defaulted to 1), with the
model defaults `status='pending'`, `waiter_name=NULL`, and the given
committed item rows nested. -/
def validatedOrder (inp : OrderInput) (oid : Nat) (now : String)
    (items : List OrderItem) : Order :=
  { id := oid
    session_id := pyStrip (inp.session_id.getD "")
    client_id := pyStrip (inp.client_id.getD "")
    username := pyStrip (inp.username.getD "")
    customer_name := pyStrip (inp.customer_name.getD "")
    customer_phone := inp.customer_phone.map pyStrip
    table_number := pyStrip (inp.table_number.getD "")
    waiter_name := none
    member_count := inp.member_count.getD 1
    subtotal := inp.subtotal.getD 0
    tax_amount := inp.tax_amount.getD 0
    total_amount := inp.total_amount.getD 0
    status := "pending"
    order_time := inp.order_time.getD ""
    special_instructions := inp.special_instructions.map pyStrip
    created_at := now
    updated_at := now
    order_items := items }

/-- View `create_order(request)` (`api/views.py:1093-1124`): validate, commit the
order row then the item rows (non-atomically), then best-effort broadcast
`new_order` to the tenant's waiter group from a fresh re-read. -/
def create_order (layer : ChannelLayer) (db : DB) (inp : OrderInput)
    (now : String) : MutationOut CreateResponse :=
  if order_create_is_valid inp then
    let oid := nextOrderId db.orders
    let (items, err) := commitItems (inp.items.getD [])
    let order := validatedOrder inp oid now items
    let db' : DB := { db with orders := db.orders ++ [order] }
    match err with
    | some m => ⟨db', [], [], .uncaught m⟩
    | none =>
      let bc :=
        tryBroadcast layer db'.orders oid "waiter_" "new_order"
          "⚠️  WebSocket broadcast to waiter failed: "
      ⟨db', bc.1, bc.2, .created "Order created successfully." order⟩
  else
    ⟨db, [], [], .badRequest []⟩



-- ── fixtures ────────────────────────────────────────────────────────────

def item1 : OrderItem := ⟨7, "Tea", "Full", 2, 100, 5⟩

def order1 : Order :=
  { id := 1, session_id := "s1", client_id := "c1", username := "alice"
    customer_name := "Bob", customer_phone := none, table_number := "T1"
    waiter_name := none, member_count := 2, subtotal := 200, tax_amount := 10
    total_amount := 210, status := "pending", order_time := "2026-01-01T10:00:00"
    special_instructions := none, created_at := "2026-01-01T10:00:01"
    updated_at := "2026-01-01T10:00:01", order_items := [item1] }

def db1 : DB := ⟨[⟨"c1", "Firm", "Place", false⟩], [order1]⟩

-- ── helper lemmas ───────────────────────────────────────────────────────

lemma getOrderById_found_id {l : List Order} {oid : Nat} {o : Order}
    (h : getOrderById l oid = some o) : o.id = oid := by
  have := List.find?_some h
  simpa using this

lemma saveOrder_cons (x : Order) (xs : List Order) (o' : Order) :
    saveOrder (x :: xs) o' = (if x.id == o'.id then o' else x) :: saveOrder xs o' := rfl

lemma getOrderById_cons (x : Order) (xs : List Order) (oid : Nat) :
    getOrderById (x :: xs) oid = if x.id == oid then some x else getOrderById xs oid := by
  simp only [getOrderById, List.find?_cons]
  cases h : (x.id == oid : Bool) <;> simp [h]

lemma getOrderById_saveOrder_self {l : List Order} {oid : Nat} {o o' : Order}
    (h : getOrderById l oid = some o) (hid : o'.id = o.id) :
    getOrderById (saveOrder l o') oid = some o' := by
  have hoid : o.id = oid := getOrderById_found_id h
  induction l with
  | nil => simp [getOrderById] at h
  | cons x xs ih =>
    rw [saveOrder_cons]
    by_cases hx : x.id = oid
    · have hxb : (x.id == oid) = true := by simpa using hx
      have hxo : x = o := by
        rw [getOrderById_cons, if_pos hxb] at h
        exact Option.some.inj h
      have hsave : (x.id == o'.id) = true := by simp [hid, hoid, hx]
      rw [if_pos hsave, getOrderById_cons]
      have : (o'.id == oid) = true := by simp [hid, hoid]
      rw [if_pos this]
    · have hxb : (x.id == oid) = false := by simpa using hx
      have h' : getOrderById xs oid = some o := by
        rw [getOrderById_cons, if_neg (by simp [hxb])] at h
        exact h
      have hsave : (x.id == o'.id) = false := by
        simp only [hid, hoid]
        simpa using hx
      rw [if_neg (by simp [hsave]), getOrderById_cons, if_neg (by simp [hxb])]
      exact ih h'

/-- C3: accept succeeds iff the prior status is exactly `pending`; on success
the status becomes `preparing` and `waiter_name` is the supplied name; any
other prior status yields a client error naming the current status and
leaves the order (and the whole store) unmodified.  Stated for a supplied
waiter name that is non-blank and whitespace-normalised, since the view
strips and rejects blank names before the transition check. -/
theorem C3_accept_pending_iff (layer : ChannelLayer) (db : DB) (oid : Nat) (w now : String)
    (order : Order) (hfind : getOrderById db.orders oid = some order)
    (hw : pyStrip w = w) (hne : w ≠ "") :
    (order.status = "pending" →
      (accept_order layer db oid (some w) now).resp =
        .ok s!"Order accepted by {w} and sent to kitchen."
          { order with waiter_name := some w, status := "preparing", updated_at := now } ∧
      (accept_order layer db oid (some w) now).db.orders =
        saveOrder db.orders
          { order with waiter_name := some w, status := "preparing", updated_at := now }) ∧
    (order.status ≠ "pending" →
      (accept_order layer db oid (some w) now).resp =
        .badRequest
          s!"Cannot accept an order with status \"{order.status}\". Only pending orders can be accepted." ∧
      (accept_order layer db oid (some w) now).db = db) := by
  constructor
  · intro hst
    unfold accept_order
    simp only [Option.getD, hw, hfind, hst]
    rw [if_neg hne]
    simp only [ne_eq, not_true_eq_false, if_false, ite_false]
    exact ⟨by trivial, by trivial⟩
  · intro hst
    unfold accept_order
    simp only [Option.getD, hw, hfind]
    rw [if_neg hne]
    simp only [ne_eq, hst, not_false_eq_true, if_true, ite_true]
    exact ⟨by trivial, by trivial⟩

/-- C7: cancel succeeds iff the prior status is neither `completed` nor
`cancelled`; on success the status becomes `cancelled`; otherwise the
response is a client error naming the current status and the store is
unmodified. -/
theorem C7_cancel_iff (db : DB) (oid : Nat) (now : String) (order : Order)
    (hfind : getOrderById db.orders oid = some order) :
    (order.status ≠ "completed" ∧ order.status ≠ "cancelled" →
      (cancel_order db oid now).resp =
        .ok "Order cancelled successfully." { order with status := "cancelled", updated_at := now } ∧
      (cancel_order db oid now).db.orders =
        saveOrder db.orders { order with status := "cancelled", updated_at := now }) ∧
    (order.status = "completed" ∨ order.status = "cancelled" →
      (cancel_order db oid now).resp =
        .badRequest s!"Cannot cancel an order with status: {order.status}." ∧
      (cancel_order db oid now).db = db) := by
  constructor
  · intro ⟨h1, h2⟩
    unfold cancel_order
    simp only [hfind]
    rw [if_neg (by simp [h1, h2])]
    exact ⟨by trivial, by trivial⟩
  · intro hterm
    unfold cancel_order
    simp only [hfind]
    rw [if_pos (by rcases hterm with h | h <;> simp [h])]
    exact ⟨by trivial, by trivial⟩

/-- C4 (amended): advance-status performs no transition guard at all — for
every existing order, including one whose status is `completed` or
`cancelled`, and every non-empty requested status, it sets the status to
the requested value and succeeds; only a missing/empty status (or an
unknown id) is rejected. -/
theorem C4_amended_update_no_guard (db : DB) (oid : Nat) (st now : String) (order : Order)
    (hfind : getOrderById db.orders oid = some order) (hst : st ≠ "") :
    ((update_order_status db oid (some st) now).resp =
      .ok "Order status updated successfully." { order with status := st, updated_at := now } ∧
     (update_order_status db oid (some st) now).db.orders =
       saveOrder db.orders { order with status := st, updated_at := now }) ∧
    update_order_status db oid none now = ⟨db, [], [], .badRequest "status is required."⟩ ∧
    update_order_status db oid (some "") now = ⟨db, [], [], .badRequest "status is required."⟩ := by
  refine ⟨?_, by simp [update_order_status, strTruthy], by simp [update_order_status, strTruthy]⟩
  unfold update_order_status
  simp only [strTruthy, hfind]
  rw [if_neg (by simp [hst])]
  exact ⟨by trivial, by trivial⟩

def orderDone : Order := { order1 with id := 2, status := "completed" }

def db2 : DB := ⟨[], [orderDone]⟩

/-- C4 counterexample: on a `completed` order, advance-status to `pending`
succeeds and mutates the store, contradicting the claim that transitions
out of terminal states are rejected and leave the order unchanged. -/
theorem C4_counterexample_terminal_escape :
    orderDone.status = "completed" ∧
    (update_order_status db2 2 (some "pending") "t2").resp =
      .ok "Order status updated successfully."
        { orderDone with status := "pending", updated_at := "t2" } ∧
    (update_order_status db2 2 (some "pending") "t2").db.orders =
      [{ orderDone with status := "pending", updated_at := "t2" }] := by
  refine ⟨rfl, by decide, by decide⟩

/-- C8: the derived item values satisfy `item_total = price * quantity`,
`tax_amount = item_total * tax / 100`, `item_total_with_tax = item_total +
tax_amount` — they are functions of the stored fields, recomputed on every
read — and the concrete instance price 100, quantity 2, tax 5 yields
200, 10, 210. -/
theorem C8_item_derived_values :
    (∀ i : OrderItem,
      i.item_total = i.price * i.quantity ∧
      i.tax_amount = i.price * i.quantity * i.tax / 100 ∧
      i.item_total_with_tax = i.price * i.quantity + i.price * i.quantity * i.tax / 100) ∧
    (OrderItem.item_total ⟨7, "Tea", "Full", 2, 100, 5⟩ = 200 ∧
     OrderItem.tax_amount ⟨7, "Tea", "Full", 2, 100, 5⟩ = 10 ∧
     OrderItem.item_total_with_tax ⟨7, "Tea", "Full", 2, 100, 5⟩ = 210) := by
  constructor
  · intro i
    refine ⟨rfl, rfl, rfl⟩
  · refine ⟨?_, ?_, ?_⟩ <;>
      norm_num [OrderItem.item_total_with_tax, OrderItem.tax_amount, OrderItem.item_total]

-- ── company-table independence (C6 amended) ─────────────────────────────

lemma accept_order_ignores_company (cs cs' : List CompanyInfo) (os : List Order)
    (layer : ChannelLayer) (oid : Nat) (w : Option String) (now : String) :
    (accept_order layer ⟨cs, os⟩ oid w now).db.orders =
      (accept_order layer ⟨cs', os⟩ oid w now).db.orders ∧
    (accept_order layer ⟨cs, os⟩ oid w now).sent = (accept_order layer ⟨cs', os⟩ oid w now).sent ∧
    (accept_order layer ⟨cs, os⟩ oid w now).log = (accept_order layer ⟨cs', os⟩ oid w now).log ∧
    (accept_order layer ⟨cs, os⟩ oid w now).resp = (accept_order layer ⟨cs', os⟩ oid w now).resp := by
  unfold accept_order
  by_cases h1 : pyStrip (w.getD "") = ""
  · simp [h1]
  · simp only [h1, if_false, ite_false]
    cases h2 : getOrderById os oid with
    | none => simp
    | some order =>
      by_cases h3 : order.status ≠ "pending"
      · simp [h3]
      · simp [h3]

lemma update_order_ignores_company (cs cs' : List CompanyInfo) (os : List Order)
    (oid : Nat) (st : Option String) (now : String) :
    (update_order_status ⟨cs, os⟩ oid st now).db.orders =
      (update_order_status ⟨cs', os⟩ oid st now).db.orders ∧
    (update_order_status ⟨cs, os⟩ oid st now).resp =
      (update_order_status ⟨cs', os⟩ oid st now).resp := by
  unfold update_order_status
  by_cases h1 : strTruthy st
  · simp only [h1]
    cases h2 : getOrderById os oid <;> simp
  · simp [h1]

lemma cancel_order_ignores_company (cs cs' : List CompanyInfo) (os : List Order)
    (oid : Nat) (now : String) :
    (cancel_order ⟨cs, os⟩ oid now).db.orders = (cancel_order ⟨cs', os⟩ oid now).db.orders ∧
    (cancel_order ⟨cs, os⟩ oid now).resp = (cancel_order ⟨cs', os⟩ oid now).resp := by
  unfold cancel_order
  cases h2 : getOrderById os oid with
  | none => simp
  | some order =>
    by_cases h3 : order.status == "completed" || order.status == "cancelled"
    · simp [h3]
    · simp [h3]

lemma create_order_ignores_company (cs cs' : List CompanyInfo) (os : List Order)
    (layer : ChannelLayer) (inp : OrderInput) (now : String) :
    (create_order layer ⟨cs, os⟩ inp now).db.orders =
      (create_order layer ⟨cs', os⟩ inp now).db.orders ∧
    (create_order layer ⟨cs, os⟩ inp now).sent = (create_order layer ⟨cs', os⟩ inp now).sent ∧
    (create_order layer ⟨cs, os⟩ inp now).log = (create_order layer ⟨cs', os⟩ inp now).log ∧
    (create_order layer ⟨cs, os⟩ inp now).resp = (create_order layer ⟨cs', os⟩ inp now).resp := by
  unfold create_order
  by_cases h1 : order_create_is_valid inp
  · simp only [h1, if_true, ite_true]
    cases h2 : commitItems (inp.items.getD []) with
    | mk items err => cases err <;> simp
  · simp [h1]

/-- C6 (amended): none of the order-mutating endpoints consults the
`company_info` table at all — their resulting orders table and response are
identical for any two company tables, so an inactive tenant's orders are
mutated exactly as an active tenant's.  (Tenant activity is enforced only
by the login/verification endpoints, which are outside the order slice.) -/
theorem C6_amended_no_tenant_activity_check (cs cs' : List CompanyInfo) (os : List Order)
    (layer : ChannelLayer) (oid : Nat) (w st : Option String) (now : String) (inp : OrderInput) :
    ((accept_order layer ⟨cs, os⟩ oid w now).db.orders =
        (accept_order layer ⟨cs', os⟩ oid w now).db.orders ∧
      (accept_order layer ⟨cs, os⟩ oid w now).resp = (accept_order layer ⟨cs', os⟩ oid w now).resp) ∧
    ((create_order layer ⟨cs, os⟩ inp now).db.orders =
        (create_order layer ⟨cs', os⟩ inp now).db.orders ∧
      (create_order layer ⟨cs, os⟩ inp now).resp = (create_order layer ⟨cs', os⟩ inp now).resp) ∧
    ((update_order_status ⟨cs, os⟩ oid st now).db.orders =
        (update_order_status ⟨cs', os⟩ oid st now).db.orders ∧
      (update_order_status ⟨cs, os⟩ oid st now).resp =
        (update_order_status ⟨cs', os⟩ oid st now).resp) ∧
    ((cancel_order ⟨cs, os⟩ oid now).db.orders = (cancel_order ⟨cs', os⟩ oid now).db.orders ∧
      (cancel_order ⟨cs, os⟩ oid now).resp = (cancel_order ⟨cs', os⟩ oid now).resp) := by
  obtain ⟨a1, -, -, a4⟩ := accept_order_ignores_company cs cs' os layer oid w now
  obtain ⟨c1, -, -, c4⟩ := create_order_ignores_company cs cs' os layer inp now
  obtain ⟨u1, u2⟩ := update_order_ignores_company cs cs' os oid st now
  obtain ⟨x1, x2⟩ := cancel_order_ignores_company cs cs' os oid now
  exact ⟨⟨a1, a4⟩, ⟨c1, c4⟩, ⟨u1, u2⟩, ⟨x1, x2⟩⟩

/-- C6 counterexample: with the tenant `c1` marked inactive
(`is_active = false`), accepting its pending order still succeeds and
mutates the store, contradicting the claim that all mutating operations on
an inactive tenant's orders are rejected. -/
theorem C6_counterexample_inactive_tenant_mutates :
    db1.company_info = [⟨"c1", "Firm", "Place", false⟩] ∧
    order1.client_id = "c1" ∧
    (accept_order none db1 1 (some "Rajan") "t1").resp =
      .ok "Order accepted by Rajan and sent to kitchen."
        { order1 with waiter_name := some "Rajan", status := "preparing", updated_at := "t1" } ∧
    (accept_order none db1 1 (some "Rajan") "t1").db.orders =
      [{ order1 with waiter_name := some "Rajan", status := "preparing", updated_at := "t1" }] := by
  refine ⟨rfl, rfl, by decide, by decide⟩

-- ── tenant-retagging invariance (C10) ───────────────────────────────────

/-- Replace an order's tenant scoping, leaving everything else unchanged. -/
def retag (c u : String) (o : Order) : Order := { o with client_id := c, username := u }

/-- Retag every order of the store. -/
def retagDB (c u : String) (db : DB) : DB := { db with orders := db.orders.map (retag c u) }

/-- Apply a function to the order carried by a success response. -/
def OrderResponse.mapOrder (f : Order → Order) : OrderResponse → OrderResponse
  | .ok m o => .ok m (f o)
  | .badRequest m => .badRequest m
  | .notFound m => .notFound m

/-- Apply a function to the order carried by a success response. -/
def DetailResponse.mapOrder (f : Order → Order) : DetailResponse → DetailResponse
  | .ok o => .ok (f o)
  | .notFound m => .notFound m

lemma getOrderById_map_retag (c u : String) (l : List Order) (oid : Nat) :
    getOrderById (l.map (retag c u)) oid = (getOrderById l oid).map (retag c u) := by
  induction l with
  | nil => rfl
  | cons x xs ih =>
    simp only [List.map_cons, getOrderById_cons]
    by_cases h : x.id = oid
    · have : ((retag c u x).id == oid) = true := by simp [retag, h]
      simp [this, h]
    · have h1 : ((retag c u x).id == oid) = false := by simp [retag, h]
      have h2 : (x.id == oid) = false := by simp [h]
      simp [h1, h2, ih]

lemma saveOrder_map_retag (c u : String) (l : List Order) (o : Order) :
    saveOrder (l.map (retag c u)) (retag c u o) = (saveOrder l o).map (retag c u) := by
  induction l with
  | nil => rfl
  | cons x xs ih =>
    simp only [List.map_cons, saveOrder_cons, ih]
    by_cases h : x.id = o.id
    · have : ((retag c u x).id == (retag c u o).id) = true := by simp [retag, h]
      simp [this, h]
    · have h1 : ((retag c u x).id == (retag c u o).id) = false := by simp [retag, h]
      have h2 : (x.id == o.id) = false := by simp [h]
      simp [h1, h2]

/-- C10: the by-id operations (`get_order_detail`, `accept_order`,
`update_order_status`, `cancel_order`) take no tenant identifier and
perform no `client_id`/`username` check: retagging every order's tenant
scoping changes each operation's response and resulting orders table only
by the same retagging — lookup, guards and mutation are oblivious to the
owning tenant. -/
theorem C10_by_id_ops_ignore_tenant (db : DB) (c u : String) (layer : ChannelLayer)
    (oid : Nat) (w st : Option String) (now : String) :
    (get_order_detail (retagDB c u db) oid =
      (get_order_detail db oid).mapOrder (retag c u)) ∧
    ((accept_order layer (retagDB c u db) oid w now).resp =
        ((accept_order layer db oid w now).resp).mapOrder (retag c u) ∧
      (accept_order layer (retagDB c u db) oid w now).db.orders =
        ((accept_order layer db oid w now).db.orders).map (retag c u)) ∧
    ((update_order_status (retagDB c u db) oid st now).resp =
        ((update_order_status db oid st now).resp).mapOrder (retag c u) ∧
      (update_order_status (retagDB c u db) oid st now).db.orders =
        ((update_order_status db oid st now).db.orders).map (retag c u)) ∧
    ((cancel_order (retagDB c u db) oid now).resp =
        ((cancel_order db oid now).resp).mapOrder (retag c u) ∧
      (cancel_order (retagDB c u db) oid now).db.orders =
        ((cancel_order db oid now).db.orders).map (retag c u)) := by
  have hdetail : get_order_detail (retagDB c u db) oid =
      (get_order_detail db oid).mapOrder (retag c u) := by
    unfold get_order_detail retagDB
    simp only [getOrderById_map_retag]
    cases hf : getOrderById db.orders oid <;> simp [DetailResponse.mapOrder]
  have haccept : (accept_order layer (retagDB c u db) oid w now).resp =
      ((accept_order layer db oid w now).resp).mapOrder (retag c u) ∧
      (accept_order layer (retagDB c u db) oid w now).db.orders =
        ((accept_order layer db oid w now).db.orders).map (retag c u) := by
    unfold accept_order retagDB
    by_cases h1 : pyStrip (w.getD "") = ""
    · simp [h1, OrderResponse.mapOrder]
    · simp only [h1, if_false, ite_false, getOrderById_map_retag]
      cases hf : getOrderById db.orders oid with
      | none => simp [OrderResponse.mapOrder]
      | some order =>
        simp only [Option.map_some']
        by_cases h3 : order.status ≠ "pending"
        · rw [if_pos (show (retag c u order).status ≠ "pending" from h3), if_pos h3]
          exact ⟨rfl, rfl⟩
        · rw [if_neg (show ¬((retag c u order).status ≠ "pending") from h3), if_neg h3]
          refine ⟨rfl, ?_⟩
          exact saveOrder_map_retag c u db.orders
            { order with waiter_name := some (pyStrip (w.getD "")), status := "preparing",
                         updated_at := now }
  have hupd : (update_order_status (retagDB c u db) oid st now).resp =
      ((update_order_status db oid st now).resp).mapOrder (retag c u) ∧
      (update_order_status (retagDB c u db) oid st now).db.orders =
        ((update_order_status db oid st now).db.orders).map (retag c u) := by
    unfold update_order_status retagDB
    by_cases h1 : strTruthy st
    · simp only [h1, Bool.not_true, if_false, ite_false, getOrderById_map_retag]
      cases hf : getOrderById db.orders oid with
      | none => simp [OrderResponse.mapOrder]
      | some order =>
        simp only [Option.map_some']
        refine ⟨rfl, ?_⟩
        exact saveOrder_map_retag c u db.orders { order with status := st.getD "", updated_at := now }
    · simp [h1, OrderResponse.mapOrder]
  have hcancel : (cancel_order (retagDB c u db) oid now).resp =
      ((cancel_order db oid now).resp).mapOrder (retag c u) ∧
      (cancel_order (retagDB c u db) oid now).db.orders =
        ((cancel_order db oid now).db.orders).map (retag c u) := by
    unfold cancel_order retagDB
    simp only [getOrderById_map_retag]
    cases hf : getOrderById db.orders oid with
    | none => simp [OrderResponse.mapOrder]
    | some order =>
      simp only [Option.map_some']
      by_cases h3 : (order.status == "completed" || order.status == "cancelled") = true
      · rw [if_pos (show ((retag c u order).status == "completed" ||
            (retag c u order).status == "cancelled") = true from h3), if_pos h3]
        exact ⟨rfl, rfl⟩
      · rw [if_neg (show ¬(((retag c u order).status == "completed" ||
            (retag c u order).status == "cancelled") = true) from h3), if_neg h3]
        refine ⟨rfl, ?_⟩
        exact saveOrder_map_retag c u db.orders { order with status := "cancelled", updated_at := now }
  exact ⟨hdetail, haccept, hupd, hcancel⟩

-- ── get_orders membership (C2) ──────────────────────────────────────────

lemma mem_get_orders (db : DB) (cid : String) (u st : Option String) (o : Order) :
    o ∈ (get_orders db (some cid) u st).ordersOf ↔
      cid ≠ "" ∧ o ∈ db.orders ∧ o.client_id = cid ∧
      (strTruthy u = true → o.username = u.getD "") ∧
      (strTruthy st = true → o.status = st.getD "") := by
  unfold get_orders ListResponse.ordersOf
  by_cases hc : cid = ""
  · subst hc
    simp [strTruthy]
  · have htr : strTruthy (some cid) = true := by simp [strTruthy, hc]
    simp only [htr, Bool.not_true, if_false, ite_false, Option.getD]
    cases hu : strTruthy u <;> cases hst : strTruthy st <;>
      simp [List.mem_mergeSort, List.mem_filter, hc, beq_iff_eq, and_assoc, and_comm, and_left_comm]

/-- C2: list-orders requires `client_id` (absent or empty fails with a
client error); every returned order has exactly the requested `client_id`;
and a (non-empty) `username` parameter only narrows the `client_id`-filtered
result — membership with `username` supplied is membership without it plus
the username condition, never a replacement of the tenant filter. -/
theorem C2_list_orders_tenant_scoped (db : DB) (cid u' : String) (u st : Option String)
    (o : Order) (hu : u' ≠ "") :
    get_orders db none u st = .badRequest "client_id is required." ∧
    get_orders db (some "") u st = .badRequest "client_id is required." ∧
    (o ∈ (get_orders db (some cid) u st).ordersOf → o.client_id = cid) ∧
    (o ∈ (get_orders db (some cid) (some u') st).ordersOf ↔
      o ∈ (get_orders db (some cid) none st).ordersOf ∧ o.username = u') := by
  refine ⟨rfl, rfl, ?_, ?_⟩
  · intro h
    exact ((mem_get_orders db cid u st o).1 h).2.2.1
  · have htr : strTruthy (some u') = true := by simp [strTruthy, hu]
    have hfalse : strTruthy (none : Option String) = false := rfl
    constructor
    · intro h
      obtain ⟨h1, h2, h3, h4, h5⟩ := (mem_get_orders db cid (some u') st o).1 h
      refine ⟨(mem_get_orders db cid none st o).2 ⟨h1, h2, h3, ?_, h5⟩, ?_⟩
      · intro hcontra
        rw [hfalse] at hcontra
        cases hcontra
      · simpa using h4 htr
    · intro ⟨h, hname⟩
      obtain ⟨h1, h2, h3, h4, h5⟩ := (mem_get_orders db cid none st o).1 h
      refine (mem_get_orders db cid (some u') st o).2 ⟨h1, h2, h3, ?_, h5⟩
      intro _
      simpa using hname

-- ── broadcast lemmas (C1, C9) ───────────────────────────────────────────

lemma tryBroadcast_sent_of_found (f : WsEvent → SendOutcome) (orders : List Order) (oid : Nat)
    (grp evT fail : String) (fresh : Order) (hfind : getOrderById orders oid = some fresh) :
    (tryBroadcast (some f) orders oid grp evT fail).1 =
      [⟨grp ++ fresh.client_id, evT, build_ws_payload fresh⟩] := by
  unfold tryBroadcast
  simp only [hfind]
  cases hf : f ⟨grp ++ fresh.client_id, evT, build_ws_payload fresh⟩ <;> simp [hf]

lemma tryBroadcast_raised_log (f : WsEvent → SendOutcome) (orders : List Order) (oid : Nat)
    (grp evT fail : String) (ev : WsEvent) (m : String)
    (hsent : (tryBroadcast (some f) orders oid grp evT fail).1 = [ev])
    (hraised : f ev = .raised m) :
    (tryBroadcast (some f) orders oid grp evT fail).2 = [fail ++ m] := by
  unfold tryBroadcast at hsent ⊢
  cases hfind : getOrderById orders oid with
  | none => simp [hfind] at hsent
  | some fresh =>
    simp only [hfind] at hsent ⊢
    cases hf : f ⟨grp ++ fresh.client_id, evT, build_ws_payload fresh⟩ with
    | delivered =>
      simp only [hf] at hsent ⊢
      have : ev = ⟨grp ++ fresh.client_id, evT, build_ws_payload fresh⟩ := by
        simpa using hsent.symm
      rw [this] at hraised
      rw [hf] at hraised
      cases hraised
    | raised m' =>
      simp only [hf] at hsent ⊢
      have hev : ev = ⟨grp ++ fresh.client_id, evT, build_ws_payload fresh⟩ := by
        simpa using hsent.symm
      rw [hev] at hraised
      rw [hf] at hraised
      cases hraised
      rfl

/-- C1: when accept succeeds on a pending order with at least one item, the
single `order_accepted` event sent to the tenant's kitchen group carries a
payload built by `_build_ws_payload` from the order as re-read fresh from
the store after the status write was committed; its items list equals the
order's persisted items (name, portion, quantity, price) and is non-empty. -/
theorem C1_accept_broadcast_fresh_nonempty (f : WsEvent → SendOutcome) (db : DB)
    (oid : Nat) (w now : String) (order : Order)
    (hfind : getOrderById db.orders oid = some order) (hst : order.status = "pending")
    (hw : pyStrip w = w) (hne : w ≠ "") (hitems : order.order_items ≠ []) :
    (accept_order (some f) db oid (some w) now).sent =
      [⟨"kitchen_" ++ order.client_id, "order_accepted",
        build_ws_payload
          { order with waiter_name := some w, status := "preparing", updated_at := now }⟩] ∧
    (build_ws_payload
        { order with waiter_name := some w, status := "preparing", updated_at := now }).items =
      order.order_items.map (fun i => ⟨i.name, i.portion, i.quantity, i.price⟩) ∧
    (build_ws_payload
        { order with waiter_name := some w, status := "preparing", updated_at := now }).items ≠ [] ∧
    getOrderById (accept_order (some f) db oid (some w) now).db.orders oid =
      some { order with waiter_name := some w, status := "preparing", updated_at := now } := by
  have hoid : order.id = oid := getOrderById_found_id hfind
  have hsave : getOrderById
      (saveOrder db.orders
        { order with waiter_name := some w, status := "preparing", updated_at := now }) oid =
      some { order with waiter_name := some w, status := "preparing", updated_at := now } :=
    getOrderById_saveOrder_self hfind rfl
  have hbody : accept_order (some f) db oid (some w) now =
      MutationOut.mk
        { db with orders := saveOrder db.orders ({ order with waiter_name := some w, status := "preparing", updated_at := now }) }
        (tryBroadcast (some f)
          (saveOrder db.orders
            ({ order with waiter_name := some w, status := "preparing", updated_at := now }))
          order.id "kitchen_" "order_accepted" "⚠️  WebSocket broadcast to kitchen failed: ").1
        (tryBroadcast (some f)
          (saveOrder db.orders
            ({ order with waiter_name := some w, status := "preparing", updated_at := now }))
          order.id "kitchen_" "order_accepted" "⚠️  WebSocket broadcast to kitchen failed: ").2
        (.ok s!"Order accepted by {w} and sent to kitchen."
          ({ order with waiter_name := some w, status := "preparing", updated_at := now })) := by
    unfold accept_order
    simp only [Option.getD, hw]
    rw [if_neg hne]
    simp only [hfind, hst, ne_eq, not_true_eq_false, if_false, ite_false]
  refine ⟨?_, rfl, ?_, ?_⟩
  · rw [hbody]
    exact tryBroadcast_sent_of_found f _ order.id _ _ _ _ (hoid.symm ▸ hsave)
  · intro hc
    apply hitems
    have hmap : order.order_items.map
        (fun i => (⟨i.name, i.portion, i.quantity, i.price⟩ : WsItem)) = [] := hc
    exact List.map_eq_nil_iff.mp hmap
  · rw [hbody]
    exact hsave

lemma accept_order_layer_indep (l1 l2 : ChannelLayer) (db : DB) (oid : Nat)
    (w : Option String) (now : String) :
    (accept_order l1 db oid w now).db = (accept_order l2 db oid w now).db ∧
    (accept_order l1 db oid w now).resp = (accept_order l2 db oid w now).resp := by
  unfold accept_order
  by_cases h1 : pyStrip (w.getD "") = ""
  · simp [h1]
  · simp only [h1, if_false, ite_false]
    cases getOrderById db.orders oid with
    | none => exact ⟨rfl, rfl⟩
    | some order =>
      by_cases h3 : order.status ≠ "pending"
      · simp only [if_pos h3]
        exact ⟨by trivial, by trivial⟩
      · simp only [if_neg h3]
        exact ⟨by trivial, by trivial⟩

lemma create_order_layer_indep (l1 l2 : ChannelLayer) (db : DB) (inp : OrderInput)
    (now : String) :
    (create_order l1 db inp now).db = (create_order l2 db inp now).db ∧
    (create_order l1 db inp now).resp = (create_order l2 db inp now).resp := by
  unfold create_order
  by_cases h1 : order_create_is_valid inp
  · simp only [h1, if_pos]
    cases hci : commitItems (inp.items.getD []) with
    | mk items err => cases err <;> exact ⟨rfl, rfl⟩
  · simp [h1]

/-- C9: the committed database and the response of `accept_order` and
`create_order` are identical for every channel-layer behaviour (absent
layer, delivery, or a raised exception) — the notification outcome never
alters the caller-visible result — and when the one attempted `group_send`
raises, the failure is caught and recorded in the printed log. -/
theorem C9_notification_never_alters_result (l1 l2 : ChannelLayer)
    (f : WsEvent → SendOutcome) (db : DB) (oid : Nat) (w : Option String)
    (now : String) (inp : OrderInput) :
    ((accept_order l1 db oid w now).db = (accept_order l2 db oid w now).db ∧
     (accept_order l1 db oid w now).resp = (accept_order l2 db oid w now).resp) ∧
    ((create_order l1 db inp now).db = (create_order l2 db inp now).db ∧
     (create_order l1 db inp now).resp = (create_order l2 db inp now).resp) ∧
    (∀ ev m, (accept_order (some f) db oid w now).sent = [ev] → f ev = .raised m →
      (accept_order (some f) db oid w now).log =
        ["⚠️  WebSocket broadcast to kitchen failed: " ++ m]) ∧
    (∀ ev m, (create_order (some f) db inp now).sent = [ev] → f ev = .raised m →
      (create_order (some f) db inp now).log =
        ["⚠️  WebSocket broadcast to waiter failed: " ++ m]) := by
  refine ⟨accept_order_layer_indep l1 l2 db oid w now,
          create_order_layer_indep l1 l2 db inp now, ?_, ?_⟩
  · intro ev m hsent hraised
    revert hsent
    unfold accept_order
    by_cases h1 : pyStrip (w.getD "") = ""
    · simp [h1]
    · simp only [h1, if_false, ite_false]
      cases getOrderById db.orders oid with
      | none => intro hc; cases hc
      | some order =>
        by_cases h3 : order.status ≠ "pending"
        · simp only [if_pos h3]
          intro hc; cases hc
        · simp only [if_neg h3]
          intro hsent
          exact tryBroadcast_raised_log f _ _ _ _ _ ev m hsent hraised
  · intro ev m hsent hraised
    revert hsent
    unfold create_order
    by_cases h1 : order_create_is_valid inp
    · simp only [h1, if_pos]
      cases hci : commitItems (inp.items.getD []) with
      | mk items err =>
        cases err with
        | none =>
          intro hsent
          exact tryBroadcast_raised_log f _ _ _ _ _ ev m hsent hraised
        | some msg => intro hc; cases hc
    · simp [h1]

-- ── create_order validation and atomicity (C5) ──────────────────────────

/-- C5 (amended): place-order validates only the top-level order fields —
a validation failure commits nothing — but the item dicts are not
validated: an item with quantity < 1 or negative price/tax is committed
verbatim with a success response (no `ValidationError`); and creation is
not atomic: the order row is committed before the item rows, so an
item-level failure (missing key, a `KeyError`) escapes the view after the
order row (and any earlier items) have been committed. -/
theorem C5_amended_create_nonatomic_unvalidated_items (layer : ChannelLayer) (db : DB)
    (inp : OrderInput) (now : String) :
    (order_create_is_valid inp = false →
      create_order layer db inp now = ⟨db, [], [], .badRequest []⟩) ∧
    (order_create_is_valid inp = true →
      ∀ m n p q pr tx, inp.items = some [⟨some m, some n, some p, some q, some pr, some tx⟩] →
        (create_order layer db inp now).resp =
          .created "Order created successfully."
            (validatedOrder inp (nextOrderId db.orders) now [⟨m, n, p, q, pr, tx⟩]) ∧
        (create_order layer db inp now).db.orders =
          db.orders ++ [validatedOrder inp (nextOrderId db.orders) now [⟨m, n, p, q, pr, tx⟩]]) ∧
    (order_create_is_valid inp = true →
      ∀ it rest, inp.items = some (it :: rest) → orderItemFromInput it = none →
        (create_order layer db inp now).resp = .uncaught "KeyError while creating order item" ∧
        (create_order layer db inp now).db.orders =
          db.orders ++ [validatedOrder inp (nextOrderId db.orders) now []]) := by
  refine ⟨?_, ?_, ?_⟩
  · intro hval
    unfold create_order
    simp [hval]
  · intro hval m n p q pr tx hitems
    unfold create_order
    simp only [hval, if_pos, hitems, Option.getD]
    have hcommit : commitItems [⟨some m, some n, some p, some q, some pr, some tx⟩] =
        ([⟨m, n, p, q, pr, (some tx).getD 0⟩], none) := rfl
    simp only [hcommit]
    exact ⟨by trivial, by trivial⟩
  · intro hval it rest hitems hnone
    unfold create_order
    simp only [hval, if_pos, hitems, Option.getD]
    have hcommit : commitItems (it :: rest) = ([], some "KeyError while creating order item") := by
      unfold commitItems
      simp [hnone]
    simp only [hcommit]
    exact ⟨by trivial, by trivial⟩

def badItem : ItemInput := ⟨some 7, some "Tea", some "Full", some 0, some (-5), some (-1)⟩

def inp1 : OrderInput :=
  { session_id := some "s1", client_id := some "c1", username := some "alice"
    customer_name := some "Bob", customer_phone := none, table_number := some "T1"
    member_count := some 2, subtotal := some 200, tax_amount := some 10
    total_amount := some 210, order_time := some "2026-01-01T10:00:00"
    special_instructions := none, items := some [badItem] }

def inp2 : OrderInput := { inp1 with items := some [{ badItem with name := none }] }

/-- C5 counterexample: a top-level-valid input whose single item has
quantity 0, price -5 and tax -1 is committed with a success response
instead of failing with `ValidationError`; and the same input with the
item's `name` key missing raises an uncaught error while still leaving the
order row committed — creation is not atomic. -/
theorem C5_counterexample_invalid_items_commit :
    order_create_is_valid inp1 = true ∧
    inp1.items = some [badItem] ∧ badItem.quantity = some 0 ∧
    badItem.price = some (-5) ∧ badItem.tax = some (-1) ∧
    (create_order none ⟨[], []⟩ inp1 "t0").resp =
      .created "Order created successfully."
        (validatedOrder inp1 1 "t0" [⟨7, "Tea", "Full", 0, -5, -1⟩]) ∧
    (create_order none ⟨[], []⟩ inp2 "t0").resp = .uncaught "KeyError while creating order item" ∧
    (create_order none ⟨[], []⟩ inp2 "t0").db.orders = [validatedOrder inp2 1 "t0" []] := by
  refine ⟨by decide, rfl, rfl, by decide, by decide, by decide, by decide, by decide⟩

-- ── witnesses ───────────────────────────────────────────────────────────

/-- Witness for C3 at a concrete pending order. -/
theorem C3_witness :
    getOrderById db1.orders 1 = some order1 ∧ pyStrip "Rajan" = "Rajan" ∧ "Rajan" ≠ "" ∧
    ((accept_order none db1 1 (some "Rajan") "t1").resp =
        .ok "Order accepted by Rajan and sent to kitchen."
          { order1 with waiter_name := some "Rajan", status := "preparing", updated_at := "t1" } ∧
      (accept_order none db1 1 (some "Rajan") "t1").db.orders =
        saveOrder db1.orders
          { order1 with waiter_name := some "Rajan", status := "preparing", updated_at := "t1" }) :=
  ⟨rfl, by decide, by decide,
    (C3_accept_pending_iff none db1 1 "Rajan" "t1" order1 rfl (by decide) (by decide)).1 rfl⟩

/-- Witness for C7 at a concrete pending order. -/
theorem C7_witness :
    getOrderById db1.orders 1 = some order1 ∧
    order1.status ≠ "completed" ∧ order1.status ≠ "cancelled" ∧
    ((cancel_order db1 1 "t4").resp =
        .ok "Order cancelled successfully." { order1 with status := "cancelled", updated_at := "t4" } ∧
      (cancel_order db1 1 "t4").db.orders =
        saveOrder db1.orders { order1 with status := "cancelled", updated_at := "t4" }) :=
  ⟨rfl, by decide, by decide,
    (C7_cancel_iff db1 1 "t4" order1 rfl).1 ⟨by decide, by decide⟩⟩

/-- Witness for the amended C4 at a concrete completed order. -/
theorem C4_amended_witness :
    getOrderById db2.orders 2 = some orderDone ∧ "pending" ≠ "" ∧
    (((update_order_status db2 2 (some "pending") "t9").resp =
        .ok "Order status updated successfully."
          { orderDone with status := "pending", updated_at := "t9" } ∧
      (update_order_status db2 2 (some "pending") "t9").db.orders =
        saveOrder db2.orders { orderDone with status := "pending", updated_at := "t9" }) ∧
     update_order_status db2 2 none "t9" = ⟨db2, [], [], .badRequest "status is required."⟩ ∧
     update_order_status db2 2 (some "") "t9" = ⟨db2, [], [], .badRequest "status is required."⟩) :=
  ⟨rfl, by decide, C4_amended_update_no_guard db2 2 "pending" "t9" orderDone rfl (by decide)⟩

/-- Witness for C2 at a concrete store and filters. -/
theorem C2_witness :
    "bob" ≠ "" ∧
    (get_orders db1 none none none = .badRequest "client_id is required." ∧
     get_orders db1 (some "") none none = .badRequest "client_id is required." ∧
     (order1 ∈ (get_orders db1 (some "c1") none none).ordersOf → order1.client_id = "c1") ∧
     (order1 ∈ (get_orders db1 (some "c1") (some "bob") none).ordersOf ↔
       order1 ∈ (get_orders db1 (some "c1") none none).ordersOf ∧ order1.username = "bob")) :=
  ⟨by decide, C2_list_orders_tenant_scoped db1 "c1" "bob" none none order1 (by decide)⟩

/-- Witness for C1 at a concrete pending one-item order. -/
theorem C1_witness :
    getOrderById db1.orders 1 = some order1 ∧ order1.status = "pending" ∧
    pyStrip "Rajan" = "Rajan" ∧ "Rajan" ≠ "" ∧ order1.order_items ≠ [] ∧
    ((accept_order (some fun _ => SendOutcome.delivered) db1 1 (some "Rajan") "t1").sent =
        [⟨"kitchen_" ++ order1.client_id, "order_accepted",
          build_ws_payload
            { order1 with waiter_name := some "Rajan", status := "preparing", updated_at := "t1" }⟩] ∧
      (build_ws_payload
          { order1 with waiter_name := some "Rajan", status := "preparing", updated_at := "t1" }).items =
        order1.order_items.map (fun i => ⟨i.name, i.portion, i.quantity, i.price⟩) ∧
      (build_ws_payload
          { order1 with waiter_name := some "Rajan", status := "preparing", updated_at := "t1" }).items ≠ [] ∧
      getOrderById
          (accept_order (some fun _ => SendOutcome.delivered) db1 1 (some "Rajan") "t1").db.orders 1 =
        some { order1 with waiter_name := some "Rajan", status := "preparing", updated_at := "t1" }) :=
  ⟨rfl, rfl, by decide, by decide, by decide,
    C1_accept_broadcast_fresh_nonempty (fun _ => SendOutcome.delivered) db1 1 "Rajan" "t1" order1
      rfl rfl (by decide) (by decide) (by decide)⟩

/-- Witness for C9 with a channel layer that always raises. -/
theorem C9_witness :
    ((accept_order (some fun _ => SendOutcome.raised "boom") db1 1 (some "Rajan") "t1").db =
        (accept_order none db1 1 (some "Rajan") "t1").db ∧
      (accept_order (some fun _ => SendOutcome.raised "boom") db1 1 (some "Rajan") "t1").resp =
        (accept_order none db1 1 (some "Rajan") "t1").resp) ∧
    (accept_order (some fun _ => SendOutcome.raised "boom") db1 1 (some "Rajan") "t1").log =
      ["⚠️  WebSocket broadcast to kitchen failed: " ++ "boom"] := by
  have h := C9_notification_never_alters_result (some fun _ => SendOutcome.raised "boom") none
      (fun _ => SendOutcome.raised "boom") db1 1 (some "Rajan") "t1" inp1
  refine ⟨h.1, ?_⟩
  have hsent : (accept_order (some fun _ => SendOutcome.raised "boom") db1 1
      (some "Rajan") "t1").sent =
      [⟨"kitchen_" ++ "c1", "order_accepted",
        build_ws_payload
          { order1 with waiter_name := some "Rajan", status := "preparing", updated_at := "t1" }⟩] := by
    decide
  exact h.2.2.1 _ "boom" hsent rfl

/-- Witness for the amended C5 at a concrete quantity-0 item. -/
theorem C5_amended_witness :
    order_create_is_valid inp1 = true ∧
    ((create_order none ⟨[], []⟩ inp1 "t0").resp =
        .created "Order created successfully."
          (validatedOrder inp1 1 "t0" [⟨7, "Tea", "Full", 0, -5, -1⟩]) ∧
      (create_order none ⟨[], []⟩ inp1 "t0").db.orders =
        [validatedOrder inp1 1 "t0" [⟨7, "Tea", "Full", 0, -5, -1⟩]]) :=
  ⟨by decide,
    (C5_amended_create_nonatomic_unvalidated_items none ⟨[], []⟩ inp1 "t0").2.1 (by decide)
      7 "Tea" "Full" 0 (-5) (-1) rfl⟩

end LiveMenu
